import Mathlib

/-!
Shallow embedding of the travel-booking registry (src/src/index.ts).

The program keeps a module-level list `bookings` and a counter `nextId`;
we model this mutable state as an explicit `RegistryState` value threaded
through the operations.  Machine numbers in the source are JavaScript
numbers used only as small counters, modelled as `Nat`.  The one fallible
operation, `bookTicket`, throws an `Error` built by `throwInvalidRouteError`;
we model it with `Except InvalidRouteError`.
-/

/-- Mirrors `enum TravelType { Flight, Train, Bus }`. -/
inductive TravelType where
  | Flight
  | Train
  | Bus
deriving DecidableEq, BEq, Repr

/-- Mirrors `type BookingStatus = "booked" | "cancelled" | "pending"`. -/
inductive BookingStatus where
  | booked
  | cancelled
  | pending
deriving DecidableEq, BEq, Repr

/-- Mirrors `interface Booking`: id, name, route tuple, travel type,
status, and the optional `mealPreference?: string`. -/
structure Booking where
  id : Nat
  name : String
  route : String × String
  travelType : TravelType
  status : BookingStatus
  mealPreference : Option String
deriving DecidableEq, Repr

/-- The module-level mutable state: `let bookings: Booking[] = []` and
`let nextId = 1`. -/
structure RegistryState where
  bookings : List Booking
  nextId : Nat
deriving DecidableEq, Repr

/-- The initial module state. -/
def initialState : RegistryState := { bookings := [], nextId := 1 }

/-- The error thrown by `throwInvalidRouteError(route)`: it carries the
offending route (the message string is presentation only). -/
structure InvalidRouteError where
  route : String × String
deriving DecidableEq, Repr

/-- JavaScript truthiness of the optional `seatType` parameter
(`string | undefined`): `undefined` and the empty string are falsy,
every other string is truthy.  This is the test performed by
`seatType ? ... : ...` and `if (seatType)`. -/
def seatTruthy : Option String → Bool
  | none => false
  | some s => s != ""

/-- The `const newBooking : Booking = { ... }` object literal of
`bookTicket`, followed by the `if (seatType) newBooking.mealPreference =
seatType` overwrite.  The literal sets `mealPreference` to `undefined`
(here `none`) when `seatType` is truthy and to `"Vegetarian"` otherwise;
the subsequent `if` overwrites it with `seatType` when truthy. -/
def mkBooking (st : RegistryState) (name : String) (route : String × String)
    (seatType : Option String) : Booking :=
  let newBooking : Booking :=
    { id := st.nextId
      name := name
      route := route
      travelType := TravelType.Flight
      status := BookingStatus.booked
      mealPreference := if seatTruthy seatType then none else some "Vegetarian" }
  if seatTruthy seatType then { newBooking with mealPreference := seatType }
  else newBooking

/-- `bookTicket(name, route, seatType?)`: throws via
`throwInvalidRouteError` when `route[0] === route[1]` (before any state
mutation), otherwise builds `newBooking` with `id: nextId++`, pushes it
onto `bookings`, and returns it.  The returned pair carries the new
booking and the updated module state. -/
def bookTicket (st : RegistryState) (name : String) (route : String × String)
    (seatType : Option String) :
    Except InvalidRouteError (Booking × RegistryState) :=
  if route.1 = route.2 then
    Except.error { route := route }
  else
    let newBooking := mkBooking st name route seatType
    Except.ok (newBooking,
      { bookings := st.bookings ++ [newBooking], nextId := st.nextId + 1 })

/-- The driver calls `bookTicket` inside `try { ... } catch`: on a throw
the module state is untouched (the throw happens before `nextId++` and
`bookings.push`).  This runner returns the state after such a guarded
call. -/
def tryBookTicket (st : RegistryState) (name : String) (route : String × String)
    (seatType : Option String) : RegistryState :=
  match bookTicket st name route seatType with
  | Except.ok (_, st') => st'
  | Except.error _ => st

/-- The argument of `cancelBooking(bookingRef: number | Booking)`. -/
inductive BookingRef where
  | byId (id : Nat)
  | byBooking (b : Booking)
deriving Repr

/-- `typeof bookingRef` picks the id directly for a number and `bookingRef.id` for a Booking value. -/
def resolveId : BookingRef → Nat
  | BookingRef.byId i => i
  | BookingRef.byBooking b => b.id

/-- `bookings.find(b => b.id === id)`. -/
def findBooking (bs : List Booking) (id : Nat) : Option Booking :=
  bs.find? (fun b => b.id == id)

/-- The in-place mutation `booking.status = "cancelled"` performed on the
object returned by `find`: the first list element whose id matches is
replaced by the same record with status `cancelled`. -/
def setStatusFirst (id : Nat) : List Booking → List Booking
  | [] => []
  | b :: bs =>
      if b.id == id then { b with status := BookingStatus.cancelled } :: bs
      else b :: setStatusFirst id bs

/-- `cancelBooking(bookingRef)`: resolves the id, finds the booking, and
either sets its status to cancelled (logging "cancelled") or logs "not
found".  The returned `Bool` records which branch was taken (`true` =
found and cancelled). -/
def cancelBooking (st : RegistryState) (ref : BookingRef) :
    RegistryState × Bool :=
  let id := resolveId ref
  match findBooking st.bookings id with
  | some _ => ({ st with bookings := setStatusFirst id st.bookings }, true)
  | none => (st, false)

/-- The per-status counters of `printSummary`. -/
structure StatusCounts where
  booked : Nat
  cancelled : Nat
  pending : Nat
deriving DecidableEq, Repr

/-- One step of the `bookings.forEach(b => statusCounts[b.status]++)`
loop in `printSummary`. -/
def statusCountsStep (acc : StatusCounts) (b : Booking) : StatusCounts :=
  match b.status with
  | BookingStatus.booked => { acc with booked := acc.booked + 1 }
  | BookingStatus.cancelled => { acc with cancelled := acc.cancelled + 1 }
  | BookingStatus.pending => { acc with pending := acc.pending + 1 }

/-- The counts computed by `printSummary`: counters start at zero and the
whole registry is scanned once. -/
def summaryCounts (bs : List Booking) : StatusCounts :=
  bs.foldl statusCountsStep { booked := 0, cancelled := 0, pending := 0 }

/-- `getBookingsByStatus(status, callback)`: filters the registry by
exact status match and synchronously applies the callback to the filtered
list.  The callback result type is abstract. -/
def getBookingsByStatus {α : Type} (st : RegistryState) (status : BookingStatus)
    (callback : List Booking → α) : α :=
  callback (st.bookings.filter (fun b => b.status == status))

/-- Spec-side comparator for the refinement claim: the spec says
QueryByStatus is semantically a direct return of
`bookings.filter(b => b.status === status)`, preserving insertion
order. -/
def queryByStatusSpec (st : RegistryState) (status : BookingStatus) :
    List Booking := st.bookings.filter (fun b => b.status == status)

/-- The registry states reachable from the empty registry through the
public mutating operations: guarded Create calls (successful or failing)
and Cancel calls.  The read-only operations (display, summary, query) do
not change the state. -/
inductive Reachable : RegistryState → Prop where
  | init : Reachable initialState
  | create (st : RegistryState) (name : String) (route : String × String)
      (seatType : Option String) :
      Reachable st → Reachable (tryBookTicket st name route seatType)
  | cancel (st : RegistryState) (ref : BookingRef) :
      Reachable st → Reachable (cancelBooking st ref).1

example : bookTicket initialState "John Doe" ("New York", "London") none =
    Except.ok
      ({ id := 1, name := "John Doe", route := ("New York", "London"),
         travelType := TravelType.Flight, status := BookingStatus.booked,
         mealPreference := some "Vegetarian" },
       { bookings := [{ id := 1, name := "John Doe",
                        route := ("New York", "London"),
                        travelType := TravelType.Flight,
                        status := BookingStatus.booked,
                        mealPreference := some "Vegetarian" }],
         nextId := 2 }) := rfl

example : bookTicket initialState "X" ("Tokyo", "Tokyo") none =
    Except.error { route := ("Tokyo", "Tokyo") } := rfl

example : (mkBooking initialState "A" ("P", "Q") (some "")).mealPreference =
    some "Vegetarian" := by decide

/-- Observes the meal preference stored in a successful booking result
(`none` when the call failed). -/
def bookedMeal (r : Except InvalidRouteError (Booking × RegistryState)) :
    Option (Option String) :=
  match r with
  | Except.ok (b, _) => some b.mealPreference
  | Except.error _ => none

/-- The status of the first registry entry with the given id, as seen by
the lookup the program uses. -/
def statusOf (bs : List Booking) (id : Nat) : Option BookingStatus :=
  (findBooking bs id).map Booking.status

/-- Decides whether every id in the list is strictly below the bound. -/
def allIdsBelow (bs : List Booking) (m : Nat) : Bool :=
  bs.all (fun b => decide (b.id < m))

/-- Decides whether the ids of the list are exactly k, k+1, k+2, ... in
order. -/
def idsFrom (k : Nat) : List Booking → Bool
  | [] => true
  | b :: bs => b.id == k && idsFrom (k + 1) bs

/-- Decides whether no entry has status pending and every entry has
travel type Flight. -/
def noPendingAllFlight (bs : List Booking) : Bool :=
  bs.all (fun b =>
    decide (b.status ≠ BookingStatus.pending)
      && decide (b.travelType = TravelType.Flight))

/-- The first booking created by the driver. -/
def johnBooking : Booking :=
  mkBooking initialState "John Doe" ("New York", "London") none

/-- The second booking created by the driver, with an explicit
preference. -/
def janeBooking : Booking :=
  mkBooking initialState "Jane Smith" ("Paris", "Berlin") (some "Business")

/-- Helper: the freshly built booking has the current counter value as
id, status booked and travel type Flight, whatever the seat argument. -/
lemma mkBooking_fields (st : RegistryState) (name : String)
    (route : String × String) (seatType : Option String) :
    (mkBooking st name route seatType).id = st.nextId
    ∧ (mkBooking st name route seatType).status = BookingStatus.booked
    ∧ (mkBooking st name route seatType).travelType = TravelType.Flight := by
  unfold mkBooking
  cases seatTruthy seatType <;> simp

/-- C1: bookTicket raises InvalidRouteError exactly when the origin of
the route equals its destination, and returns a new Booking exactly when
they differ; no other field is validated. -/
theorem bookTicket_error_iff_same_route (st : RegistryState) (name : String)
    (route : String × String) (seatType : Option String) :
    (bookTicket st name route seatType = Except.error { route := route }
        ↔ route.1 = route.2)
    ∧ ((∃ b st', bookTicket st name route seatType = Except.ok (b, st'))
        ↔ route.1 ≠ route.2) := by
  unfold bookTicket
  by_cases h : route.1 = route.2 <;> simp [h]

/-- C2 counterexample: a Create supplied with the empty-string meal
preference succeeds but stores "Vegetarian", not the supplied empty
string, because the empty string is falsy in JavaScript. -/
theorem bookTicket_empty_meal_counterexample :
    bookedMeal (bookTicket initialState "Ann" ("Paris", "Berlin") (some ""))
        = some (some "Vegetarian")
    ∧ (some (some "Vegetarian") : Option (Option String)) ≠ some (some "") :=
  ⟨rfl, by decide⟩

/-- C2 (amended): for every successful Create, the stored meal
preference equals the supplied string when a truthy (non-empty) string
is supplied, and "Vegetarian" when the argument is absent or the empty
string. -/
theorem bookTicket_mealPreference (st : RegistryState) (name : String)
    (route : String × String) (seatType : Option String) (b : Booking)
    (st' : RegistryState)
    (hok : bookTicket st name route seatType = Except.ok (b, st')) :
    b.mealPreference =
      (if seatTruthy seatType then seatType else some "Vegetarian") := by
  unfold bookTicket at hok
  by_cases h : route.1 = route.2
  · simp [h] at hok
  · simp [h] at hok
    obtain ⟨hb, hst⟩ := hok
    subst hb
    unfold mkBooking
    cases hs : seatTruthy seatType <;> simp [hs]

/-- Witness for C2 (amended): the second driver booking, created with
preference "Business", stores exactly "Business". -/
theorem bookTicket_mealPreference_witness :
    janeBooking.mealPreference = some "Business" :=
  bookTicket_mealPreference initialState "Jane Smith" ("Paris", "Berlin")
    (some "Business") janeBooking
    { bookings := [janeBooking], nextId := 2 } rfl

/-- C6: a Create that fails with InvalidRouteError is atomic: the
bookings list and the id counter are unchanged, so a later summary
reports the same counts. -/
theorem tryBookTicket_invalid_atomic (st : RegistryState) (name : String)
    (route : String × String) (seatType : Option String)
    (h : route.1 = route.2) :
    tryBookTicket st name route seatType = st
    ∧ summaryCounts (tryBookTicket st name route seatType).bookings
        = summaryCounts st.bookings := by
  unfold tryBookTicket bookTicket
  simp [h]

/-- Witness for C6: the Tokyo-to-Tokyo booking of the spec scenario
fails and leaves the state unchanged. -/
theorem tryBookTicket_invalid_atomic_witness :
    tryBookTicket initialState "X" ("Tokyo", "Tokyo") none = initialState
    ∧ summaryCounts
        (tryBookTicket initialState "X" ("Tokyo", "Tokyo") none).bookings
        = summaryCounts initialState.bookings :=
  tryBookTicket_invalid_atomic initialState "X" ("Tokyo", "Tokyo") none rfl

/-- Helper: the status counters accumulate exactly one unit per scanned
booking, whatever the starting accumulator. -/
lemma summaryCounts_go (bs : List Booking) (acc : StatusCounts) :
    (bs.foldl statusCountsStep acc).booked
      + (bs.foldl statusCountsStep acc).cancelled
      + (bs.foldl statusCountsStep acc).pending
    = acc.booked + acc.cancelled + acc.pending + bs.length := by
  induction bs generalizing acc with
  | nil => simp
  | cons b bs ih =>
    simp only [List.foldl_cons, ih, List.length_cons]
    cases hb : b.status <;> simp [statusCountsStep, hb] <;> omega

/-- C7: the three per-status counts computed by printSummary sum to the
total number of bookings, for every registry content (in particular for
every reachable one). -/
theorem summaryCounts_sum (bs : List Booking) :
    (summaryCounts bs).booked + (summaryCounts bs).cancelled
      + (summaryCounts bs).pending = bs.length := by
  unfold summaryCounts
  simpa using summaryCounts_go bs { booked := 0, cancelled := 0, pending := 0 }

/-- C8: getBookingsByStatus applies its callback synchronously to
exactly the status-filtered registry in insertion order, so it is
semantically a direct return of the filtered sequence. -/
theorem getBookingsByStatus_eq_direct {α : Type} (st : RegistryState)
    (status : BookingStatus) (callback : List Booking → α) :
    getBookingsByStatus st status callback
      = callback (queryByStatusSpec st status) := rfl

/-- Helper: after the in-place cancellation, the lookup by the same id
finds the same record with status cancelled. -/
lemma findBooking_setStatusFirst (id : Nat) (bs : List Booking) :
    findBooking (setStatusFirst id bs) id
      = (findBooking bs id).map
          (fun b => { b with status := BookingStatus.cancelled }) := by
  induction bs with
  | nil => rfl
  | cons b bs ih =>
    cases hid : (b.id == id) with
    | true => simp [setStatusFirst, findBooking, List.find?, hid]
    | false =>
      simp only [setStatusFirst, hid, Bool.false_eq_true, if_false]
      simp only [findBooking, List.find?, hid] at ih ⊢
      exact ih

/-- Helper: cancelling the same id twice rewrites the same record with
the same status, so the list is unchanged the second time. -/
lemma setStatusFirst_idem (id : Nat) (bs : List Booking) :
    setStatusFirst id (setStatusFirst id bs) = setStatusFirst id bs := by
  induction bs with
  | nil => rfl
  | cons b bs ih =>
    cases hid : (b.id == id) with
    | true => simp [setStatusFirst, hid]
    | false => simp [setStatusFirst, hid, ih]

/-- C4: cancelling an id present in the registry sets the matching
booking status to cancelled, and a second cancel of the same id finds it again,
reports success, and leaves the state exactly as after the first cancel
(idempotence, no error). -/
theorem cancelBooking_existing_idempotent (st : RegistryState) (id : Nat)
    (h : (findBooking st.bookings id).isSome = true) :
    statusOf (cancelBooking st (BookingRef.byId id)).1.bookings id
        = some BookingStatus.cancelled
    ∧ cancelBooking (cancelBooking st (BookingRef.byId id)).1
        (BookingRef.byId id)
      = ((cancelBooking st (BookingRef.byId id)).1, true) := by
  obtain ⟨b, hf⟩ : ∃ b, findBooking st.bookings id = some b := by
    cases hfb : findBooking st.bookings id with
    | none => rw [hfb] at h; simp at h
    | some b => exact ⟨b, rfl⟩
  have h1 : cancelBooking st (BookingRef.byId id)
      = ({ st with bookings := setStatusFirst id st.bookings }, true) := by
    simp [cancelBooking, resolveId, hf]
  have h2 : findBooking (setStatusFirst id st.bookings) id
      = some { b with status := BookingStatus.cancelled } := by
    rw [findBooking_setStatusFirst, hf]; rfl
  constructor
  · rw [h1]
    simp [statusOf, h2]
  · rw [h1]
    simp [cancelBooking, resolveId, h2, setStatusFirst_idem]

/-- Witness for C4: cancelling the first driver booking twice. -/
theorem cancelBooking_existing_idempotent_witness :
    statusOf (cancelBooking { bookings := [johnBooking], nextId := 2 }
        (BookingRef.byId 1)).1.bookings 1 = some BookingStatus.cancelled
    ∧ cancelBooking (cancelBooking { bookings := [johnBooking], nextId := 2 }
          (BookingRef.byId 1)).1 (BookingRef.byId 1)
      = ((cancelBooking { bookings := [johnBooking], nextId := 2 }
          (BookingRef.byId 1)).1, true) :=
  cancelBooking_existing_idempotent
    { bookings := [johnBooking], nextId := 2 } 1 (by decide)

/-- C5: cancelling a reference (plain id or Booking value) whose id
matches no registry entry reports not-found and returns the state
unchanged: same list, same fields, same statuses, and no exception. -/
theorem cancelBooking_missing_noop (st : RegistryState) (ref : BookingRef)
    (h : (findBooking st.bookings (resolveId ref)).isSome = false) :
    cancelBooking st ref = (st, false) := by
  cases hf : findBooking st.bookings (resolveId ref) with
  | none => simp [cancelBooking, hf]
  | some b => rw [hf] at h; simp at h

/-- Witness for C5: cancelling id 42 in the empty registry. -/
theorem cancelBooking_missing_noop_witness :
    cancelBooking initialState (BookingRef.byId 42)
      = (initialState, false) :=
  cancelBooking_missing_noop initialState (BookingRef.byId 42) rfl

/-- Helper: the in-place cancellation keeps the list length. -/
lemma setStatusFirst_length (id : Nat) (bs : List Booking) :
    (setStatusFirst id bs).length = bs.length := by
  induction bs with
  | nil => rfl
  | cons b bs ih =>
    cases hid : (b.id == id) with
    | true => simp [setStatusFirst, hid]
    | false => simp [setStatusFirst, hid, ih]

/-- Helper: the in-place cancellation keeps every id where it is. -/
lemma idsFrom_setStatusFirst (id : Nat) (bs : List Booking) (k : Nat) :
    idsFrom k (setStatusFirst id bs) = idsFrom k bs := by
  induction bs generalizing k with
  | nil => rfl
  | cons b bs ih =>
    cases hid : (b.id == id) with
    | true => simp [setStatusFirst, hid, idsFrom]
    | false => simp [setStatusFirst, hid, idsFrom, ih]

/-- Helper: appending a record carrying the next id keeps the ids
consecutive. -/
lemma idsFrom_append_singleton (bs : List Booking) (k : Nat) (b : Booking)
    (h : idsFrom k bs = true) (hb : b.id = k + bs.length) :
    idsFrom k (bs ++ [b]) = true := by
  induction bs generalizing k with
  | nil =>
    simp only [List.length_nil, Nat.add_zero] at hb
    simp [idsFrom, hb]
  | cons c cs ih =>
    simp only [idsFrom, Bool.and_eq_true, beq_iff_eq] at h
    simp only [List.cons_append, idsFrom, Bool.and_eq_true, beq_iff_eq]
    refine ⟨h.1, ih (k + 1) h.2 ?_⟩
    simp only [List.length_cons] at hb
    omega

/-- Helper: consecutive ids starting at k are all at least k. -/
lemma idsFrom_le_id (bs : List Booking) (k : Nat) (h : idsFrom k bs = true) :
    ∀ b ∈ bs, k ≤ b.id := by
  induction bs generalizing k with
  | nil => simp
  | cons c cs ih =>
    simp only [idsFrom, Bool.and_eq_true, beq_iff_eq] at h
    intro b hb
    rcases List.mem_cons.mp hb with rfl | hb
    · omega
    · have := ih (k + 1) h.2 b hb
      omega

/-- Helper: consecutive ids starting at k stay below k plus the list
length. -/
lemma idsFrom_id_lt (bs : List Booking) (k : Nat) (h : idsFrom k bs = true) :
    ∀ b ∈ bs, b.id < k + bs.length := by
  induction bs generalizing k with
  | nil => simp
  | cons c cs ih =>
    simp only [idsFrom, Bool.and_eq_true, beq_iff_eq] at h
    intro b hb
    rcases List.mem_cons.mp hb with rfl | hb
    · simp only [List.length_cons]
      omega
    · have := ih (k + 1) h.2 b hb
      simp only [List.length_cons]
      omega

/-- Helper: consecutive ids are pairwise distinct. -/
lemma idsFrom_nodup (bs : List Booking) (k : Nat) (h : idsFrom k bs = true) :
    (bs.map Booking.id).Nodup := by
  induction bs generalizing k with
  | nil => simp
  | cons c cs ih =>
    simp only [idsFrom, Bool.and_eq_true, beq_iff_eq] at h
    simp only [List.map_cons, List.nodup_cons, List.mem_map]
    constructor
    · rintro ⟨b, hb, hbid⟩
      have := idsFrom_le_id cs (k + 1) h.2 b hb
      omega
    · exact ih (k + 1) h.2

/-- Helper: consecutive ids are all below the position one past the
end. -/
lemma idsFrom_allIdsBelow (bs : List Booking) (k m : Nat)
    (h : idsFrom k bs = true) (hm : k + bs.length ≤ m) :
    allIdsBelow bs m = true := by
  simp only [allIdsBelow, List.all_eq_true, decide_eq_true_eq]
  intro b hb
  have := idsFrom_id_lt bs k h b hb
  omega

/-- Main invariant: in every reachable state the registry holds ids
1, 2, ..., n in order and the counter reads n + 1. -/
lemma reachable_ids (st : RegistryState) (h : Reachable st) :
    idsFrom 1 st.bookings = true ∧ st.nextId = st.bookings.length + 1 := by
  induction h with
  | init => exact ⟨rfl, rfl⟩
  | create st name route seatType h ih =>
    obtain ⟨ih1, ih2⟩ := ih
    unfold tryBookTicket bookTicket
    by_cases hr : route.1 = route.2
    · simp only [hr, if_true]
      exact ⟨ih1, ih2⟩
    · simp only [hr, if_false]
      constructor
      · apply idsFrom_append_singleton _ _ _ ih1
        have hid := (mkBooking_fields st name route seatType).1
        omega
      · simp only [List.length_append, List.length_singleton]
        omega
  | cancel st ref h ih =>
    obtain ⟨ih1, ih2⟩ := ih
    cases hf : findBooking st.bookings (resolveId ref) with
    | none =>
      simp only [cancelBooking, hf]
      exact ⟨ih1, ih2⟩
    | some b =>
      simp only [cancelBooking, hf]
      exact ⟨by rw [idsFrom_setStatusFirst]; exact ih1,
             by rw [setStatusFirst_length]; exact ih2⟩

/-- C3: in every reachable state, a successful Create returns a booking
whose id is the registry size plus one — hence strictly greater than
every previously assigned id, consecutive with no gap, and starting at 1
on the empty registry.  A failed Create returns no booking and (by C6)
leaves the counter untouched, so it consumes no id. -/
theorem bookTicket_id_strictly_monotonic (st : RegistryState)
    (h : Reachable st) (name : String) (route : String × String)
    (seatType : Option String) (b : Booking) (st' : RegistryState)
    (hok : bookTicket st name route seatType = Except.ok (b, st')) :
    b.id = st.bookings.length + 1 ∧ allIdsBelow st.bookings b.id = true := by
  obtain ⟨h1, h2⟩ := reachable_ids st h
  unfold bookTicket at hok
  by_cases hr : route.1 = route.2
  · simp [hr] at hok
  · simp only [hr, if_false, Except.ok.injEq, Prod.mk.injEq] at hok
    obtain ⟨hb, hst⟩ := hok
    have hid : b.id = st.nextId := by
      rw [← hb]
      exact (mkBooking_fields st name route seatType).1
    constructor
    · omega
    · apply idsFrom_allIdsBelow st.bookings 1 _ h1
      omega

/-- Witness for C3: the first creation from the empty registry yields
id 1. -/
theorem bookTicket_id_strictly_monotonic_witness :
    johnBooking.id = initialState.bookings.length + 1
    ∧ allIdsBelow initialState.bookings johnBooking.id = true :=
  bookTicket_id_strictly_monotonic initialState Reachable.init "John Doe"
    ("New York", "London") none johnBooking
    { bookings := [johnBooking], nextId := 2 } rfl

/-- Helper: the in-place cancellation never introduces a pending status
and never changes a travel type. -/
lemma noPendingAllFlight_setStatusFirst (id : Nat) (bs : List Booking)
    (h : noPendingAllFlight bs = true) :
    noPendingAllFlight (setStatusFirst id bs) = true := by
  induction bs with
  | nil => rfl
  | cons b bs ih =>
    simp only [noPendingAllFlight, List.all_cons, Bool.and_eq_true,
      decide_eq_true_eq] at h
    obtain ⟨⟨hs, ht⟩, hbs⟩ := h
    cases hid : (b.id == id) with
    | true =>
      simp only [setStatusFirst, hid, if_true, noPendingAllFlight,
        List.all_cons, Bool.and_eq_true, decide_eq_true_eq]
      exact ⟨⟨by simp, ht⟩, hbs⟩
    | false =>
      simp only [setStatusFirst, hid, Bool.false_eq_true, if_false,
        noPendingAllFlight, List.all_cons, Bool.and_eq_true,
        decide_eq_true_eq]
      refine ⟨⟨hs, ht⟩, ?_⟩
      have := ih (by simpa [noPendingAllFlight] using hbs)
      simpa [noPendingAllFlight] using this

/-- C9: in every reachable state no booking has status pending and
every booking has travel type Flight: creation always assigns booked
and Flight, and the only transition performed by Cancel is to
cancelled. -/
theorem reachable_no_pending_always_flight (st : RegistryState)
    (h : Reachable st) : noPendingAllFlight st.bookings = true := by
  induction h with
  | init => rfl
  | create st name route seatType h ih =>
    unfold tryBookTicket bookTicket
    by_cases hr : route.1 = route.2
    · simpa only [hr, if_true] using ih
    · simp only [hr, if_false, noPendingAllFlight, List.all_append,
        List.all_cons, List.all_nil, Bool.and_eq_true, decide_eq_true_eq]
      obtain ⟨hid, hs, ht⟩ := mkBooking_fields st name route seatType
      exact ⟨by simpa [noPendingAllFlight] using ih, ⟨by simp [hs], ht⟩, trivial⟩
  | cancel st ref h ih =>
    cases hf : findBooking st.bookings (resolveId ref) with
    | none =>
      simp only [cancelBooking, hf]
      exact ih
    | some b =>
      simp only [cancelBooking, hf]
      exact noPendingAllFlight_setStatusFirst _ _ ih

/-- Witness for C9: the state after the first driver creation. -/
theorem reachable_no_pending_always_flight_witness :
    noPendingAllFlight
      (tryBookTicket initialState "John Doe" ("New York", "London")
        none).bookings = true :=
  reachable_no_pending_always_flight _
    (Reachable.create initialState "John Doe" ("New York", "London") none
      Reachable.init)

/-- C10: in every reachable state the booking at position i has id
i + 1, the counter reads size + 1, and consequently all ids are pairwise
distinct, so any lookup by id matches at most one booking. -/
theorem reachable_sequential_ids (st : RegistryState) (h : Reachable st) :
    idsFrom 1 st.bookings = true
    ∧ st.nextId = st.bookings.length + 1
    ∧ (st.bookings.map Booking.id).Nodup := by
  obtain ⟨h1, h2⟩ := reachable_ids st h
  exact ⟨h1, h2, idsFrom_nodup st.bookings 1 h1⟩

/-- Witness for C10: the state after creating the second driver
booking from the empty registry. -/
theorem reachable_sequential_ids_witness :
    idsFrom 1 (tryBookTicket initialState "Jane Smith" ("Paris", "Berlin")
        (some "Business")).bookings = true
    ∧ (tryBookTicket initialState "Jane Smith" ("Paris", "Berlin")
        (some "Business")).nextId
      = (tryBookTicket initialState "Jane Smith" ("Paris", "Berlin")
          (some "Business")).bookings.length + 1
    ∧ ((tryBookTicket initialState "Jane Smith" ("Paris", "Berlin")
        (some "Business")).bookings.map Booking.id).Nodup :=
  reachable_sequential_ids _
    (Reachable.create initialState "Jane Smith" ("Paris", "Berlin")
      (some "Business") Reachable.init)
